import Mathlib

/-!
Shallow embedding of the Transport Synchronization Engine of the HereHear
repository, translated from `src/herehear/src/components/TimingSync.ts`
(timestamp/offset representation) and
`src/gpsound/src/components/TimingSync.ts` (kinematic-vector variant).
Wall-clock instants are milliseconds modelled as rationals; positions are
seconds modelled as rationals; the Tone.js transport is modelled by the
fields of it that the engine reads and writes.
-/

/-- JavaScript truthiness of a `number | null` value: `null` and `0` are
falsy, every other number is truthy (NaN does not arise over ℚ). -/
def jsTruthy : Option ℚ → Bool
  | none => false
  | some t => t != 0

/-- JavaScript `Math.round`: round half toward positive infinity. -/
def jsRound (q : ℚ) : ℤ := Rat.floor (q + 1/2)

/-- The play state of the Tone.js transport (`transport.state`). -/
inductive PlayState
  | started
  | paused
  | stopped
deriving DecidableEq, Repr

/-- Model of the Tone.js transport as the engine observes and mutates it:
its play state, its position in seconds (`transport.seconds`), its bpm
(`transport.bpm.value`) and, when `transport.start(time)` was called with a
time argument, the scheduled start instant. -/
structure Transport where
  state : PlayState
  seconds : ℚ
  bpm : ℚ
  startAt : Option ℚ
deriving DecidableEq, Repr

/-- The shared timeline state, `TransportState` in
`src/herehear/src/automergeTypes` as used by `TimingSync.ts`:
`startTime` is the reference instant in ms since epoch (`null` when
paused), `bpm` the tempo, `pausedPosition` the position in seconds to
resume from. -/
structure TransportState where
  startTime : Option ℚ
  bpm : ℚ
  isPlaying : Bool
  pausedPosition : ℚ
deriving DecidableEq, Repr

/-- The engine (`TimingSync` singleton) fields the claims concern: the
initialization flag, the current timeline state, and whether a bpm-change
callback is registered (`onBpmChangeCallback !== null`). -/
structure Engine where
  isInitialized : Bool
  currentState : TransportState
  callbackRegistered : Bool
deriving DecidableEq, Repr

/-- Derived position of a playing timeline state at wall-clock `now` (ms):
`(now - referenceInstant) / 1000` seconds (spec §3). -/
def derivedPosition (s : TransportState) (now : ℚ) : ℚ :=
  (now - s.startTime.getD 0) / 1000

/-- Result of a command handler: the mutated engine, the mutated transport,
the `TransportState` snapshot the handler returns, and the console
diagnostics it emitted. -/
structure CmdResult where
  engine : Engine
  transport : Transport
  ret : TransportState
  logs : List String
deriving Repr

/-- Result of `syncFromRemote`: the mutated engine and transport, the
arguments passed to the registered bpm-change callback (in order), and the
console diagnostics. -/
structure SyncResult where
  engine : Engine
  transport : Transport
  bpmCalls : List ℤ
  logs : List String
deriving Repr

/-- `TimingSync.seekTo` (herehear, lines 103-109): smooth seek. Pauses the
transport, sets its position to `targetSeconds + lookahead` with
`lookahead = 0.05`, and schedules `transport.start(Tone.now() + lookahead)`
where `toneNow` is the audio-context clock in seconds. -/
def seekTo (targetSeconds : ℚ) (toneNow : ℚ) (tr : Transport) : Transport :=
  let lookahead : ℚ := 1/20
  let tr1 := { tr with state := PlayState.paused }
  let tr2 := { tr1 with seconds := targetSeconds + lookahead }
  { tr2 with state := PlayState.started, startAt := some (toneNow + lookahead) }

/-- `TimingSync.syncFromRemote` (herehear, lines 50-94). `now` is
`Date.now()` in ms and `toneNow` is `Tone.now()` in seconds, both at the
moment of the call. -/
def syncFromRemote (e : Engine) (tr : Transport) (now toneNow : ℚ)
    (state : TransportState) : SyncResult :=
  if !e.isInitialized then ⟨e, tr, [], []⟩
  else
    let prevBpm := e.currentState.bpm
    let wasPlaying := e.currentState.isPlaying
    let e1 := { e with currentState := state }
    let calls :=
      if |prevBpm - state.bpm| > 1/10 then
        if e.callbackRegistered then [jsRound state.bpm] else []
      else []
    let tr1 := { tr with bpm := state.bpm }
    if state.isPlaying && jsTruthy state.startTime then
      let elapsed := now - state.startTime.getD 0
      let positionInSeconds := elapsed / 1000
      if !wasPlaying || tr1.state != PlayState.started then
        let tr2 := { tr1 with seconds := positionInSeconds }
        ⟨e1, { tr2 with state := PlayState.started, startAt := none }, calls,
          ["[TimingSync] Starting Transport"]⟩
      else
        let drift := |tr1.seconds - positionInSeconds|
        if drift > 1/20 then
          ⟨e1, seekTo positionInSeconds toneNow tr1, calls,
            ["[TimingSync] syncFromRemote correcting drift"]⟩
        else ⟨e1, tr1, calls, []⟩
    else
      if tr1.state == PlayState.started then
        ⟨e1, { tr1 with state := PlayState.paused }, calls,
          ["[TimingSync] Pausing Transport"]⟩
      else ⟨e1, tr1, calls, []⟩

/-- `TimingSync.syncToTransport` (herehear, lines 111-131): the periodic
drift corrector. Returns the (possibly corrected) transport and the
diagnostics emitted. -/
def syncToTransport (e : Engine) (tr : Transport) (now toneNow : ℚ) :
    Transport × List String :=
  if !e.isInitialized || !e.currentState.isPlaying
      || !(jsTruthy e.currentState.startTime) then (tr, [])
  else
    let elapsed := now - e.currentState.startTime.getD 0
    let expectedPosition := elapsed / 1000
    let currentPosition := tr.seconds
    let drift := |currentPosition - expectedPosition|
    if drift > 1/20 then
      (seekTo expectedPosition toneNow tr, ["[TimingSync] Correcting drift"])
    else (tr, [])

/-- The delay in ms the sync loop computes for its next invocation
(herehear, lines 137-141): `baseInterval + (r * jitterRange * 2 - jitterRange)`
with `baseInterval = 250`, `jitterRange = 50` and `r = Math.random()`. -/
def computeDelay (r : ℚ) : ℚ := 250 + (r * 50 * 2 - 50)

/-- `TimingSync.setBPM` (herehear, lines 150-163). -/
def setBPM (e : Engine) (tr : Transport) (bpm : ℚ) : CmdResult :=
  if !e.isInitialized then
    ⟨e, tr, e.currentState, ["TimingSync not initialized"]⟩
  else
    let s1 := { e.currentState with bpm := bpm }
    ⟨{ e with currentState := s1 }, { tr with bpm := bpm }, s1, ["Updated BPM"]⟩

/-- `TimingSync.start` (herehear, lines 169-186): restart from position 0. -/
def start (e : Engine) (tr : Transport) (now : ℚ) : CmdResult :=
  if !e.isInitialized then
    ⟨e, tr, e.currentState, ["TimingSync not initialized"]⟩
  else
    let tr1 := { tr with seconds := 0 }
    let s1 := { e.currentState with
      startTime := some now, isPlaying := true, pausedPosition := 0 }
    ⟨{ e with currentState := s1 },
      { tr1 with state := PlayState.started, startAt := none }, s1,
      ["Started playback from 0"]⟩

/-- `TimingSync.resume` (herehear, lines 192-215): resume from the paused
position, back-dating `startTime`. -/
def resume (e : Engine) (tr : Transport) (now : ℚ) : CmdResult :=
  if !e.isInitialized then
    ⟨e, tr, e.currentState, ["TimingSync not initialized"]⟩
  else if e.currentState.isPlaying then
    ⟨e, tr, e.currentState, ["Already playing"]⟩
  else
    let pos := e.currentState.pausedPosition
    let tr1 := { tr with seconds := pos }
    let s1 := { e.currentState with
      startTime := some (now - pos * 1000), isPlaying := true }
    ⟨{ e with currentState := s1 },
      { tr1 with state := PlayState.started, startAt := none }, s1,
      ["Resumed playback"]⟩

/-- `TimingSync.pause` (herehear, lines 221-238): snapshot the elapsed
position, stop playing. -/
def pause (e : Engine) (tr : Transport) (now : ℚ) : CmdResult :=
  if !e.isInitialized then
    ⟨e, tr, e.currentState, ["TimingSync not initialized"]⟩
  else
    let s0 := e.currentState
    let s1 :=
      if jsTruthy s0.startTime then
        { s0 with pausedPosition := (now - s0.startTime.getD 0) / 1000 }
      else s0
    let s2 := { s1 with isPlaying := false, startTime := none }
    ⟨{ e with currentState := s2 }, { tr with state := PlayState.paused }, s2,
      ["Paused"]⟩

/-- `TimingSync.reset` (herehear, lines 244-260): back to position 0
without changing the play/pause state. -/
def reset (e : Engine) (tr : Transport) (now : ℚ) : CmdResult :=
  if !e.isInitialized then
    ⟨e, tr, e.currentState, ["TimingSync not initialized"]⟩
  else
    let tr1 := { tr with seconds := 0 }
    let s1 := { e.currentState with pausedPosition := 0 }
    let s2 := if s1.isPlaying then { s1 with startTime := some now } else s1
    ⟨{ e with currentState := s2 }, tr1, s2, ["Reset position to 0"]⟩

/-- A kinematic vector of the third-party timing protocol
(gpsound `TimingSync.translateVector` argument). -/
structure KinematicVector where
  position : ℚ
  velocity : ℚ
  timestamp : ℚ
  acceleration : ℚ
deriving DecidableEq, Repr

/-- `TimingSync.translateVector` (gpsound, lines 68-82): rejects non-zero
acceleration with an error, otherwise extrapolates the position to
`nowSec = performance.now() / 1000`. Returns (position, velocity). -/
def translateVector (nowSec : ℚ) (v : KinematicVector) :
    Except String (ℚ × ℚ) :=
  if v.acceleration != 0 then Except.error "Acceleration not supported"
  else
    let elapsed := nowSec - v.timestamp
    Except.ok (v.position + v.velocity * elapsed, v.velocity)

/-- `TimingSync.syncFromTimingObject` (gpsound, lines 84-133). The thrown
error of `translateVector` aborts the function before any transport
mutation, so on error the transport and callback list are returned
unchanged/empty. -/
def syncFromTimingObject (nowSec : ℚ) (v : KinematicVector) (tr : Transport)
    (callbackRegistered : Bool) :
    Except String Unit × Transport × List ℤ :=
  match translateVector nowSec v with
  | Except.error msg => (Except.error msg, tr, [])
  | Except.ok (position, velocity) =>
    let bpm := velocity * 60
    let calls :=
      if bpm > 0 && |tr.bpm - bpm| > 1/10 then
        if callbackRegistered then [jsRound bpm] else []
      else []
    if velocity > 0 then
      let tr1 := { tr with seconds := position / velocity, bpm := bpm }
      let tr2 :=
        if tr1.state != PlayState.started then
          { tr1 with state := PlayState.started, startAt := none }
        else tr1
      (Except.ok (), tr2, calls)
    else
      let tr2 :=
        if tr.state != PlayState.stopped then
          { tr with state := PlayState.stopped, seconds := 0 }
        else tr
      (Except.ok (), tr2, calls)

/-- A sample remote snapshot: playing since instant 500 ms at 120 bpm. -/
def sRem : TransportState := ⟨some 500, 120, true, 0⟩

/-- A sample initialized engine that is playing, with a bpm callback
registered. -/
def ePlay : Engine := ⟨true, sRem, true⟩

/-- A sample engine that has not been initialized. -/
def eOff : Engine := ⟨false, ⟨none, 120, false, 0⟩, false⟩

/-- A sample running transport at position 2 s. -/
def trS : Transport := ⟨PlayState.started, 2, 120, none⟩

/-- C9: for every value r in [0, 1) from the random source, the delay the
sync loop computes for its next invocation lies within [200 ms, 300 ms]. -/
theorem syncLoop_delay_in_range (r : ℚ) (h0 : 0 ≤ r) (h1 : r < 1) :
    200 ≤ computeDelay r ∧ computeDelay r ≤ 300 := by
  unfold computeDelay
  constructor <;> nlinarith

/-- Witness for C9 at r = 1/2. -/
theorem syncLoop_delay_in_range_witness :
    ((0:ℚ) ≤ 1/2 ∧ (1:ℚ)/2 < 1) ∧
    (200 ≤ computeDelay (1/2) ∧ computeDelay (1/2) ≤ 300) :=
  ⟨by norm_num, syncLoop_delay_in_range (1/2) (by norm_num) (by norm_num)⟩

/-- C2: round-trip law. For an initialized playing engine, pause() at t1
then resume() at t2 sets referenceInstant to t2 - pausedPosition*1000, so
the derived position immediately after resume() equals the pausedPosition
recorded at pause() (exactly, over ℚ). -/
theorem pause_resume_roundtrip (e : Engine) (tr : Transport) (t1 t2 : ℚ)
    (hinit : e.isInitialized = true) (hplay : e.currentState.isPlaying = true) :
    (resume (pause e tr t1).engine (pause e tr t1).transport t2).engine.currentState.startTime
      = some (t2 - (pause e tr t1).engine.currentState.pausedPosition * 1000) ∧
    derivedPosition
      (resume (pause e tr t1).engine (pause e tr t1).transport t2).engine.currentState t2
      = (pause e tr t1).engine.currentState.pausedPosition := by
  simp only [pause, resume, hinit, hplay, Bool.not_true, Bool.false_eq_true, if_false,
    derivedPosition]
  cases h : jsTruthy e.currentState.startTime <;> simp

/-- Witness for C2: pause at t1 = 2500 then resume at t2 = 9000. -/
theorem pause_resume_roundtrip_witness :
    (ePlay.isInitialized = true ∧ ePlay.currentState.isPlaying = true) ∧
    ((resume (pause ePlay trS 2500).engine (pause ePlay trS 2500).transport
          9000).engine.currentState.startTime
        = some (9000 - (pause ePlay trS 2500).engine.currentState.pausedPosition * 1000) ∧
      derivedPosition
        (resume (pause ePlay trS 2500).engine (pause ePlay trS 2500).transport
          9000).engine.currentState 9000
        = (pause ePlay trS 2500).engine.currentState.pausedPosition) :=
  ⟨⟨rfl, rfl⟩, pause_resume_roundtrip ePlay trS 2500 9000 rfl rfl⟩

/-- C7: every command handler invoked before initialization mutates
nothing (engine and transport unchanged), returns the unchanged current
state, and emits a diagnostic; being a total function of the embedding it
raises no exception. -/
theorem handlers_noop_before_init (e : Engine) (tr : Transport) (now bpm : ℚ)
    (hni : e.isInitialized = false) :
    ((start e tr now).engine = e ∧ (start e tr now).transport = tr ∧
      (start e tr now).ret = e.currentState ∧ (start e tr now).logs ≠ []) ∧
    ((resume e tr now).engine = e ∧ (resume e tr now).transport = tr ∧
      (resume e tr now).ret = e.currentState ∧ (resume e tr now).logs ≠ []) ∧
    ((pause e tr now).engine = e ∧ (pause e tr now).transport = tr ∧
      (pause e tr now).ret = e.currentState ∧ (pause e tr now).logs ≠ []) ∧
    ((reset e tr now).engine = e ∧ (reset e tr now).transport = tr ∧
      (reset e tr now).ret = e.currentState ∧ (reset e tr now).logs ≠ []) ∧
    ((setBPM e tr bpm).engine = e ∧ (setBPM e tr bpm).transport = tr ∧
      (setBPM e tr bpm).ret = e.currentState ∧ (setBPM e tr bpm).logs ≠ []) := by
  simp [start, resume, pause, reset, setBPM, hni]

/-- Witness for C7 on an uninitialized engine. -/
theorem handlers_noop_before_init_witness :
    (eOff.isInitialized = false) ∧
    (((start eOff trS 7).engine = eOff ∧ (start eOff trS 7).transport = trS ∧
        (start eOff trS 7).ret = eOff.currentState ∧ (start eOff trS 7).logs ≠ []) ∧
      ((resume eOff trS 7).engine = eOff ∧ (resume eOff trS 7).transport = trS ∧
        (resume eOff trS 7).ret = eOff.currentState ∧ (resume eOff trS 7).logs ≠ []) ∧
      ((pause eOff trS 7).engine = eOff ∧ (pause eOff trS 7).transport = trS ∧
        (pause eOff trS 7).ret = eOff.currentState ∧ (pause eOff trS 7).logs ≠ []) ∧
      ((reset eOff trS 7).engine = eOff ∧ (reset eOff trS 7).transport = trS ∧
        (reset eOff trS 7).ret = eOff.currentState ∧ (reset eOff trS 7).logs ≠ []) ∧
      ((setBPM eOff trS 99).engine = eOff ∧ (setBPM eOff trS 99).transport = trS ∧
        (setBPM eOff trS 99).ret = eOff.currentState ∧ (setBPM eOff trS 99).logs ≠ [])) :=
  ⟨rfl, handlers_noop_before_init eOff trS 7 99 rfl⟩

/-- C10: an initialized engine receiving a snapshot with isPlaying true
but referenceInstant null adopts the snapshot as local state, changes
neither the clock position nor its scheduled start, pauses the clock
exactly when it was running, and produces the same transport as the same
snapshot with isPlaying false would. -/
theorem applyRemote_playing_null_reference (e : Engine) (tr : Transport)
    (now toneNow : ℚ) (s : TransportState)
    (hinit : e.isInitialized = true) (hplay : s.isPlaying = true)
    (href : s.startTime = none) :
    (syncFromRemote e tr now toneNow s).engine.currentState = s ∧
    (syncFromRemote e tr now toneNow s).transport.seconds = tr.seconds ∧
    (syncFromRemote e tr now toneNow s).transport.startAt = tr.startAt ∧
    (tr.state = PlayState.started →
      (syncFromRemote e tr now toneNow s).transport.state = PlayState.paused) ∧
    (tr.state ≠ PlayState.started →
      (syncFromRemote e tr now toneNow s).transport.state = tr.state) ∧
    (syncFromRemote e tr now toneNow s).transport
      = (syncFromRemote e tr now toneNow { s with isPlaying := false }).transport := by
  simp only [syncFromRemote, hinit, hplay, href, jsTruthy, Bool.not_true, Bool.false_eq_true,
    if_false, Bool.and_false, Bool.false_and]
  cases h : tr.state == PlayState.started <;>
    simp_all [beq_iff_eq]

/-- Witness for C10: a playing snapshot with null startTime against a
running transport. -/
theorem applyRemote_playing_null_reference_witness :
    (ePlay.isInitialized = true ∧
      (⟨none, 130, true, 2⟩ : TransportState).isPlaying = true ∧
      (⟨none, 130, true, 2⟩ : TransportState).startTime = none) ∧
    ((syncFromRemote ePlay trS 1000 3 ⟨none, 130, true, 2⟩).engine.currentState
        = ⟨none, 130, true, 2⟩ ∧
      (syncFromRemote ePlay trS 1000 3 ⟨none, 130, true, 2⟩).transport.seconds
        = trS.seconds ∧
      (syncFromRemote ePlay trS 1000 3 ⟨none, 130, true, 2⟩).transport.startAt
        = trS.startAt ∧
      (trS.state = PlayState.started →
        (syncFromRemote ePlay trS 1000 3 ⟨none, 130, true, 2⟩).transport.state
          = PlayState.paused) ∧
      (trS.state ≠ PlayState.started →
        (syncFromRemote ePlay trS 1000 3 ⟨none, 130, true, 2⟩).transport.state
          = trS.state) ∧
      (syncFromRemote ePlay trS 1000 3 ⟨none, 130, true, 2⟩).transport
        = (syncFromRemote ePlay trS 1000 3
            { (⟨none, 130, true, 2⟩ : TransportState) with isPlaying := false }).transport) :=
  ⟨⟨rfl, rfl, rfl⟩, applyRemote_playing_null_reference ePlay trS 1000 3 _ rfl rfl rfl⟩

/-- C5: with a callback registered, applyRemote passes exactly one call,
with the rounded new tempo, when the tempo change exceeds 0.1, and no call
otherwise. -/
theorem tempo_callback_iff (e : Engine) (tr : Transport) (now toneNow : ℚ)
    (s : TransportState)
    (hinit : e.isInitialized = true) (hcb : e.callbackRegistered = true) :
    (|e.currentState.bpm - s.bpm| > 1/10 →
      (syncFromRemote e tr now toneNow s).bpmCalls = [jsRound s.bpm]) ∧
    (|e.currentState.bpm - s.bpm| ≤ 1/10 →
      (syncFromRemote e tr now toneNow s).bpmCalls = []) := by
  simp only [syncFromRemote, hinit, hcb, Bool.not_true, Bool.false_eq_true, if_false, if_true]
  constructor
  · intro h
    split_ifs <;> simp_all
  · intro h
    split_ifs <;> simp_all <;> linarith

/-- Witness for C5: tempo change from 120 to 130 fires the callback
once with 130. -/
theorem tempo_callback_iff_witness :
    (ePlay.isInitialized = true ∧ ePlay.callbackRegistered = true) ∧
    ((|ePlay.currentState.bpm - (⟨some 400, 130, true, 0⟩ : TransportState).bpm| > 1/10 →
        (syncFromRemote ePlay trS 1000 3 ⟨some 400, 130, true, 0⟩).bpmCalls
          = [jsRound (⟨some 400, 130, true, 0⟩ : TransportState).bpm]) ∧
      (|ePlay.currentState.bpm - (⟨some 400, 130, true, 0⟩ : TransportState).bpm| ≤ 1/10 →
        (syncFromRemote ePlay trS 1000 3 ⟨some 400, 130, true, 0⟩).bpmCalls = [])) :=
  ⟨⟨rfl, rfl⟩, tempo_callback_iff ePlay trS 1000 3 _ rfl rfl⟩

/-- C1 counterexample: with the local state not playing but the clock in
the started condition (drift 0.04 s, within tolerance), applyRemote on a
playing snapshot still changes the clock position — a hard seek while the
clock was already running, refuting "if the clock was already running, it
never performs a hard seek". -/
theorem applyRemote_hard_seek_while_running :
    ((⟨PlayState.started, 1/25, 120, none⟩ : Transport).state = PlayState.started) ∧
    |(⟨PlayState.started, 1/25, 120, none⟩ : Transport).seconds - (1000 - 1000)/1000| ≤ 1/20 ∧
    (syncFromRemote ⟨true, ⟨none, 120, false, 0⟩, false⟩
        ⟨PlayState.started, 1/25, 120, none⟩ 1000 0
        ⟨some 1000, 120, true, 0⟩).transport.seconds
      ≠ (⟨PlayState.started, 1/25, 120, none⟩ : Transport).seconds := by
  norm_num [syncFromRemote, jsTruthy, abs_le]

/-- C1 amended: applyRemote on a playing snapshot with referenceInstant
set performs a hard seek whenever the previous local state was not playing
or the clock was not started; only when the previous local state was
playing and the clock was already started does it leave the clock alone
for drift at most 0.05 s and smooth-seek for larger drift. -/
theorem applyRemote_transition_steady (e : Engine) (tr : Transport)
    (now toneNow st : ℚ) (s : TransportState)
    (hinit : e.isInitialized = true) (hplay : s.isPlaying = true)
    (hst : s.startTime = some st) (hnz : st ≠ 0) :
    (¬(e.currentState.isPlaying = true ∧ tr.state = PlayState.started) →
      (syncFromRemote e tr now toneNow s).transport =
        { state := PlayState.started, seconds := (now - st)/1000, bpm := s.bpm,
          startAt := none }) ∧
    (e.currentState.isPlaying = true → tr.state = PlayState.started →
      ((|tr.seconds - (now - st)/1000| ≤ 1/20 →
          (syncFromRemote e tr now toneNow s).transport = { tr with bpm := s.bpm }) ∧
        (|tr.seconds - (now - st)/1000| > 1/20 →
          (syncFromRemote e tr now toneNow s).transport
            = seekTo ((now - st)/1000) toneNow { tr with bpm := s.bpm }))) := by
  refine ⟨?_, ?_⟩
  · intro hno
    by_cases hw : e.currentState.isPlaying = true
    · have htr : tr.state ≠ PlayState.started := fun h => hno ⟨hw, h⟩
      simp [syncFromRemote, hinit, hplay, hst, jsTruthy, hnz, hw, htr]
    · have hw2 : e.currentState.isPlaying = false := by
        cases h : e.currentState.isPlaying
        · rfl
        · exact absurd h hw
      simp [syncFromRemote, hinit, hplay, hst, jsTruthy, hnz, hw2]
  · intro hw htr
    refine ⟨?_, ?_⟩
    · intro hdr
      have h2 : ¬ ((20:ℚ)⁻¹ < |tr.seconds - (now - st)/1000|) := by
        rw [← one_div]
        exact not_lt.mpr hdr
      simp [syncFromRemote, hinit, hplay, hst, jsTruthy, hnz, hw, htr, h2]
    · intro hdr
      have h2 : ((20:ℚ)⁻¹ < |tr.seconds - (now - st)/1000|) := by
        rw [← one_div]
        exact hdr
      simp [syncFromRemote, hinit, hplay, hst, jsTruthy, hnz, hw, htr, h2]

/-- Witness for the amended C1 at a concrete playing engine and running
transport. -/
theorem applyRemote_transition_steady_witness :
    (ePlay.isInitialized = true ∧ sRem.isPlaying = true ∧
      sRem.startTime = some 500 ∧ (500:ℚ) ≠ 0) ∧
    ((¬(ePlay.currentState.isPlaying = true ∧ trS.state = PlayState.started) →
        (syncFromRemote ePlay trS 2500 3 sRem).transport =
          { state := PlayState.started, seconds := (2500 - 500)/1000, bpm := sRem.bpm,
            startAt := none }) ∧
      (ePlay.currentState.isPlaying = true → trS.state = PlayState.started →
        ((|trS.seconds - (2500 - 500)/1000| ≤ 1/20 →
            (syncFromRemote ePlay trS 2500 3 sRem).transport = { trS with bpm := sRem.bpm }) ∧
          (|trS.seconds - (2500 - 500)/1000| > 1/20 →
            (syncFromRemote ePlay trS 2500 3 sRem).transport
              = seekTo ((2500 - 500)/1000) 3 { trS with bpm := sRem.bpm })))) :=
  ⟨⟨rfl, rfl, rfl, by norm_num⟩,
    applyRemote_transition_steady ePlay trS 2500 3 500 sRem rfl rfl rfl (by norm_num)⟩

/-- C4: for an initialized playing engine with reference instant st, both
the periodic drift corrector and the steady-state branch of applyRemote
(same tempo, clock started, previous state playing) leave the transport
unchanged when drift is at most 0.05 s and smooth-seek to the expected
position when drift exceeds 0.05 s. -/
theorem drift_corrector_threshold (e : Engine) (tr : Transport)
    (now toneNow st : ℚ) (s : TransportState)
    (hinit : e.isInitialized = true) (hplay : e.currentState.isPlaying = true)
    (hst : e.currentState.startTime = some st) (hnz : st ≠ 0)
    (hsp : s.isPlaying = true) (hss : s.startTime = some st)
    (hsb : s.bpm = tr.bpm) (htr : tr.state = PlayState.started) :
    (|tr.seconds - (now - st)/1000| ≤ 1/20 →
      (syncToTransport e tr now toneNow).1 = tr ∧
      (syncFromRemote e tr now toneNow s).transport = tr) ∧
    (|tr.seconds - (now - st)/1000| > 1/20 →
      (syncToTransport e tr now toneNow).1 = seekTo ((now - st)/1000) toneNow tr ∧
      (syncFromRemote e tr now toneNow s).transport
        = seekTo ((now - st)/1000) toneNow tr) := by
  obtain ⟨ts, tsec, tb, tsa⟩ := tr
  simp only at hsb htr
  refine ⟨fun hdr => ?_, fun hdr => ?_⟩
  · have h2 : ¬ ((20:ℚ)⁻¹ < |tsec - (now - st)/1000|) := by
      rw [← one_div]
      exact not_lt.mpr hdr
    constructor
    · simp [syncToTransport, hinit, hplay, hst, jsTruthy, hnz, h2]
    · simp [syncFromRemote, hinit, hsp, hss, jsTruthy, hnz, hplay, htr, hsb, h2]
  · have h2 : ((20:ℚ)⁻¹ < |tsec - (now - st)/1000|) := by
      rw [← one_div]
      exact hdr
    constructor
    · simp [syncToTransport, hinit, hplay, hst, jsTruthy, hnz, h2]
    · simp [syncFromRemote, hinit, hsp, hss, jsTruthy, hnz, hplay, htr, hsb, h2]

/-- Witness for C4 at a concrete engine, transport and snapshot. -/
theorem drift_corrector_threshold_witness :
    (ePlay.isInitialized = true ∧ ePlay.currentState.isPlaying = true ∧
      ePlay.currentState.startTime = some 500 ∧ (500:ℚ) ≠ 0 ∧
      sRem.isPlaying = true ∧ sRem.startTime = some 500 ∧
      sRem.bpm = trS.bpm ∧ trS.state = PlayState.started) ∧
    ((|trS.seconds - (2500 - 500)/1000| ≤ 1/20 →
        (syncToTransport ePlay trS 2500 3).1 = trS ∧
        (syncFromRemote ePlay trS 2500 3 sRem).transport = trS) ∧
      (|trS.seconds - (2500 - 500)/1000| > 1/20 →
        (syncToTransport ePlay trS 2500 3).1 = seekTo ((2500 - 500)/1000) 3 trS ∧
        (syncFromRemote ePlay trS 2500 3 sRem).transport
          = seekTo ((2500 - 500)/1000) 3 trS)) :=
  ⟨⟨rfl, rfl, rfl, by norm_num, rfl, rfl, rfl, rfl⟩,
    drift_corrector_threshold ePlay trS 2500 3 500 sRem rfl rfl rfl (by norm_num)
      rfl rfl rfl rfl⟩

/-- C3 counterexample: an initialized engine with positive tempo 120
accepts setBPM(-1) and stores a non-positive tempo, refuting "setTempo(t)
validates t as positive, adopting it only when t is greater than 0". -/
theorem setTempo_accepts_nonpositive :
    (0:ℚ) < (⟨true, ⟨none, 120, false, 0⟩, false⟩ : Engine).currentState.bpm ∧
    ¬(0 < (setBPM ⟨true, ⟨none, 120, false, 0⟩, false⟩
        ⟨PlayState.stopped, 0, 120, none⟩ (-1)).engine.currentState.bpm) := by
  norm_num [setBPM]

/-- C3 amended: setBPM adopts its argument unconditionally (no positivity
validation), so the stored tempo is positive after setBPM(t) exactly when
t itself is positive; the remaining handlers never change the stored
tempo and therefore preserve its positivity. -/
theorem tempo_positive_preservation (e : Engine) (tr : Transport) (now t : ℚ)
    (hinit : e.isInitialized = true) (hpos : 0 < e.currentState.bpm) :
    (setBPM e tr t).engine.currentState.bpm = t ∧
    (0 < t → 0 < (setBPM e tr t).engine.currentState.bpm) ∧
    ((start e tr now).engine.currentState.bpm = e.currentState.bpm ∧
      0 < (start e tr now).engine.currentState.bpm) ∧
    ((resume e tr now).engine.currentState.bpm = e.currentState.bpm ∧
      0 < (resume e tr now).engine.currentState.bpm) ∧
    ((pause e tr now).engine.currentState.bpm = e.currentState.bpm ∧
      0 < (pause e tr now).engine.currentState.bpm) ∧
    ((reset e tr now).engine.currentState.bpm = e.currentState.bpm ∧
      0 < (reset e tr now).engine.currentState.bpm) := by
  refine ⟨by simp [setBPM, hinit], fun ht => by simp [setBPM, hinit, ht], ?_, ?_, ?_, ?_⟩
  · constructor <;> simp [start, hinit, hpos]
  · rcases h : e.currentState.isPlaying <;>
      constructor <;> simp [resume, hinit, h, hpos]
  · rcases h : jsTruthy e.currentState.startTime <;>
      constructor <;> simp [pause, hinit, h, hpos]
  · rcases h : e.currentState.isPlaying <;>
      constructor <;> simp [reset, hinit, h, hpos]

/-- Witness for the amended C3 with t = 130 on an engine at tempo 120. -/
theorem tempo_positive_preservation_witness :
    (ePlay.isInitialized = true ∧ 0 < ePlay.currentState.bpm) ∧
    ((setBPM ePlay trS 130).engine.currentState.bpm = 130 ∧
      (0 < (130:ℚ) → 0 < (setBPM ePlay trS 130).engine.currentState.bpm) ∧
      ((start ePlay trS 7).engine.currentState.bpm = ePlay.currentState.bpm ∧
        0 < (start ePlay trS 7).engine.currentState.bpm) ∧
      ((resume ePlay trS 7).engine.currentState.bpm = ePlay.currentState.bpm ∧
        0 < (resume ePlay trS 7).engine.currentState.bpm) ∧
      ((pause ePlay trS 7).engine.currentState.bpm = ePlay.currentState.bpm ∧
        0 < (pause ePlay trS 7).engine.currentState.bpm) ∧
      ((reset ePlay trS 7).engine.currentState.bpm = ePlay.currentState.bpm ∧
        0 < (reset ePlay trS 7).engine.currentState.bpm)) :=
  ⟨⟨rfl, by norm_num [ePlay, sRem]⟩,
    tempo_positive_preservation ePlay trS 7 130 rfl (by norm_num [ePlay, sRem])⟩

/-- C6 counterexample: seekTo 1 schedules the restart 0.05 s ahead, but
the position the clock holds at that restart is not the target 1 (it is
1.05), refuting "at the moment sound resumes the clock position equals
target". -/
theorem smooth_seek_overshoots_target :
    (seekTo 1 0 ⟨PlayState.started, 0, 120, none⟩).startAt = some (0 + 1/20) ∧
    (seekTo 1 0 ⟨PlayState.started, 0, 120, none⟩).seconds ≠ 1 := by
  norm_num [seekTo]

/-- C6 amended: the smooth seek pauses the clock, sets its position to
target + 0.05 and schedules the restart at toneNow + 0.05; the position at
the restart is target + 0.05, which equals the position the timeline
implies 50 ms after the instant at which target was the expected
position — so the correction leaves no residual drift. -/
theorem smooth_seek_steps (target toneNow now st : ℚ) (tr : Transport) :
    seekTo target toneNow tr =
      { state := PlayState.started, seconds := target + 1/20, bpm := tr.bpm,
        startAt := some (toneNow + 1/20) } ∧
    (seekTo ((now - st) / 1000) toneNow tr).seconds = (now + 50 - st) / 1000 := by
  obtain ⟨ts, tsec, tb, tsa⟩ := tr
  constructor
  · simp [seekTo]
  · simp [seekTo]
    ring

/-- C8: a kinematic vector with non-zero acceleration is rejected with an
error by translateVector; the error aborts syncFromTimingObject before
any mutation, leaving the transport unchanged and invoking no callback. -/
theorem translateVector_rejects_acceleration (nowSec : ℚ) (v : KinematicVector)
    (tr : Transport) (cb : Bool) (ha : v.acceleration ≠ 0) :
    translateVector nowSec v = Except.error "Acceleration not supported" ∧
    (syncFromTimingObject nowSec v tr cb).1
      = Except.error "Acceleration not supported" ∧
    (syncFromTimingObject nowSec v tr cb).2.1 = tr ∧
    (syncFromTimingObject nowSec v tr cb).2.2 = ([] : List ℤ) := by
  have h1 : translateVector nowSec v = Except.error "Acceleration not supported" := by
    simp [translateVector, ha]
  refine ⟨h1, ?_, ?_, ?_⟩ <;> simp [syncFromTimingObject, h1]

/-- Witness for C8 with acceleration 2. -/
theorem translateVector_rejects_acceleration_witness :
    ((⟨0, 1, 0, 2⟩ : KinematicVector).acceleration ≠ 0) ∧
    (translateVector 1 ⟨0, 1, 0, 2⟩ = Except.error "Acceleration not supported" ∧
      (syncFromTimingObject 1 ⟨0, 1, 0, 2⟩ trS false).1
        = Except.error "Acceleration not supported" ∧
      (syncFromTimingObject 1 ⟨0, 1, 0, 2⟩ trS false).2.1 = trS ∧
      (syncFromTimingObject 1 ⟨0, 1, 0, 2⟩ trS false).2.2 = ([] : List ℤ)) :=
  ⟨by norm_num,
    translateVector_rejects_acceleration 1 ⟨0, 1, 0, 2⟩ trS false (by norm_num)⟩
